import Mathlib

/-!
Verification development for the image-comparison pipeline in
`compare_images.py`.  The definitions below are a shallow embedding of the
source: Python strings become `String`, `json.loads` becomes a small
executable JSON parser over `List Char`, the per-question evaluation loop
becomes a recursive function producing one record per question, and the
filesystem / HTTP transport / VQA engine (all external collaborators) become
explicit function parameters.
-/

/-- Character set used by Python `str.strip()` (default whitespace strip):
space, tab, the ASCII line/paragraph controls and the common Unicode
whitespace actually reachable here.  Matches `str.isspace` on the ASCII
range. -/
def isPyWs (c : Char) : Bool :=
  c = ' ' || c = '\t' || c = '\n' || c = '\r' ||
  c = Char.ofNat 11 || c = Char.ofNat 12 ||
  c = Char.ofNat 28 || c = Char.ofNat 29 || c = Char.ofNat 30 || c = Char.ofNat 31 ||
  c = Char.ofNat 133 || c = Char.ofNat 160

/-- Python `s.strip(chars)` semantics: remove from both ends every character
belonging to the given predicate (NOT prefix/suffix removal — this is the
character-set semantics of `str.strip`). -/
def pyStripChars (s : String) (p : Char → Bool) : String :=
  ⟨((s.data.dropWhile p).reverse.dropWhile p).reverse⟩

/-- Python `s.strip()` — strip whitespace from both ends. -/
def pyStrip (s : String) : String :=
  pyStripChars s isPyWs

/-- Python `s.strip(chars)` for an explicit character list. -/
def pyStripSet (s : String) (cs : List Char) : String :=
  pyStripChars s (fun c => cs.contains c)

/-- Python `s.lower()` (ASCII case mapping, which is all the source's
answers use). -/
def pyLower (s : String) : String :=
  ⟨s.data.map Char.toLower⟩

/-- Line-break characters recognised by Python `str.splitlines` ( \r\n is
handled as a single break by `normNewlines` below). -/
def isLineBreak (c : Char) : Bool :=
  c = '\n' || c = '\r' ||
  c = Char.ofNat 11 || c = Char.ofNat 12 ||
  c = Char.ofNat 28 || c = Char.ofNat 29 || c = Char.ofNat 30 ||
  c = Char.ofNat 133 || c = Char.ofNat 8232 || c = Char.ofNat 8233

/-- Collapse the two-character break \r\n into a single \n so that
`splitlines` can treat every break as one character. -/
def normNewlines : List Char → List Char
  | '\r' :: '\n' :: r => '\n' :: normNewlines r
  | c :: r => c :: normNewlines r
  | [] => []

/-- Worker for `splitlines`: accumulate the current line (reversed); a break
character emits the accumulated line; at the end the last line is emitted
only when non-empty — exactly Python `str.splitlines` (no trailing empty
line for a trailing newline). -/
def splitlinesGo : List Char → List Char → List String
  | [], acc => if acc.isEmpty then [] else [⟨acc.reverse⟩]
  | c :: r, acc =>
    if isLineBreak c then String.mk acc.reverse :: splitlinesGo r []
    else splitlinesGo r (c :: acc)

/-- Python `s.splitlines()`. -/
def splitlines (s : String) : List String :=
  splitlinesGo (normNewlines s.data) []

/-- Python `line.split('.', 1)[1]` guarded by `'.' in line`: `some rest`
when the line contains a period, where `rest` is everything after the first
period; `none` when it contains none. -/
def afterDot : List Char → Option (List Char)
  | [] => none
  | '.' :: r => some r
  | _ :: r => afterDot r

/-- JSON values as produced by Python `json.loads`.  Numbers keep their raw
source lexeme (no property of the program depends on numeric value, only on
the shape of the parsed document). -/
inductive Json where
  | null
  | bool (b : Bool)
  | num (raw : String)
  | str (s : String)
  | arr (elems : List Json)
  | obj (fields : List (String × Json))

/-- True exactly on JSON string values. -/
def Json.isStr : Json → Bool
  | Json.str _ => true
  | _ => false

/-- JSON whitespace skipped by the parser: space, tab, newline, carriage
return (RFC 8259 / CPython `json`). -/
def skipWsJ : List Char → List Char
  | [] => []
  | c :: r => if c = ' ' || c = '\t' || c = '\n' || c = '\r' then skipWsJ r else c :: r

/-- Hexadecimal digit value, for the \u escape. -/
def hexVal (c : Char) : Option Nat :=
  if c.isDigit then some (c.toNat - 48)
  else if 'a' ≤ c && c ≤ 'f' then some (c.toNat - 87)
  else if 'A' ≤ c && c ≤ 'F' then some (c.toNat - 55)
  else none

/-- Single-character JSON string escapes. -/
def escChar (c : Char) : Option Char :=
  if c = '"' then some '"'
  else if c = '\\' then some '\\'
  else if c = '/' then some '/'
  else if c = 'n' then some '\n'
  else if c = 't' then some '\t'
  else if c = 'r' then some '\r'
  else if c = 'b' then some (Char.ofNat 8)
  else if c = 'f' then some (Char.ofNat 12)
  else none

/-- Parse the body of a JSON string after the opening quote; returns the
decoded characters and the remainder after the closing quote.  Raw control
characters are rejected, as in CPython strict mode. -/
def parseStrChars : List Char → Option (List Char × List Char)
  | [] => none
  | c :: r =>
    if c = '"' then some ([], r)
    else if c = '\\' then
      match r with
      | [] => none
      | 'u' :: h1 :: h2 :: h3 :: h4 :: r2 =>
        match hexVal h1, hexVal h2, hexVal h3, hexVal h4, parseStrChars r2 with
        | some a, some b, some d, some e, some (s, rem) =>
          some (Char.ofNat (((a * 16 + b) * 16 + d) * 16 + e) :: s, rem)
        | _, _, _, _, _ => none
      | e :: r2 =>
        match escChar e, parseStrChars r2 with
        | some ch, some (s, rem) => some (ch :: s, rem)
        | _, _ => none
    else if c.toNat < 32 then none
    else
      match parseStrChars r with
      | some (s, rem) => some (c :: s, rem)
      | none => none

/-- Characters that may occur in a JSON number lexeme. -/
def numTailChar (c : Char) : Bool :=
  c.isDigit || c = '-' || c = '+' || c = '.' || c = 'e' || c = 'E'

/-- Consume a run of decimal digits. -/
def dropDigits : List Char → List Char :=
  List.dropWhile Char.isDigit

/-- Integer part of a JSON number: `0` or a non-zero digit followed by
digits (leading zeros rejected, as in JSON). -/
def validIntPart : List Char → Option (List Char)
  | [] => none
  | c :: r =>
    if c = '0' then some r
    else if c.isDigit then some (dropDigits r)
    else none

/-- Optional fraction part: a period must be followed by at least one
digit. -/
def validFrac : List Char → Option (List Char)
  | [] => some []
  | c :: r =>
    if c = '.' then
      match r with
      | [] => none
      | d :: r2 => if d.isDigit then some (dropDigits r2) else none
    else some (c :: r)

/-- Optional exponent part: e/E, optional sign, at least one digit. -/
def validExp : List Char → Option (List Char)
  | [] => some []
  | c :: r =>
    if c = 'e' || c = 'E' then
      let r2 := match r with
        | [] => ([] : List Char)
        | s :: r3 => if s = '+' || s = '-' then r3 else s :: r3
      match r2 with
      | [] => none
      | d :: r3 => if d.isDigit then some (dropDigits r3) else none
    else some (c :: r)

/-- Whole-lexeme validity of a JSON number. -/
def validNum (l : List Char) : Bool :=
  let l1 := match l with
    | [] => ([] : List Char)
    | c :: r => if c = '-' then r else c :: r
  match validIntPart l1 with
  | none => false
  | some r1 =>
    match validFrac r1 with
    | none => false
    | some r2 =>
      match validExp r2 with
      | none => false
      | some r3 => r3.isEmpty

/-- Remove a literal keyword (null, true, false, NaN, Infinity, -Infinity)
from the head of the input, returning the remainder. -/
def dropLit : List Char → List Char → Option (List Char)
  | [], l => some l
  | _ :: _, [] => none
  | p :: ps, c :: cs => if p = c then dropLit ps cs else none

/-- Parse a literal keyword accepted by CPython `json.loads` (including the
non-standard NaN/Infinity extensions it allows by default). -/
def parseKeyword (l : List Char) : Option (Json × List Char) :=
  match dropLit ("null".data) l with
  | some r => some (Json.null, r)
  | none =>
    match dropLit ("true".data) l with
    | some r => some (Json.bool true, r)
    | none =>
      match dropLit ("false".data) l with
      | some r => some (Json.bool false, r)
      | none =>
        match dropLit ("NaN".data) l with
        | some r => some (Json.num "NaN", r)
        | none =>
          match dropLit ("Infinity".data) l with
          | some r => some (Json.num "Infinity", r)
          | none =>
            match dropLit ("-Infinity".data) l with
            | some r => some (Json.num "-Infinity", r)
            | none => none

mutual

/-- Fueled recursive-descent parser for one JSON value; mirrors
`json.loads` on a document prefix, returning the value and the unconsumed
remainder. -/
def parseVal : Nat → List Char → Option (Json × List Char)
  | 0, _ => none
  | fuel + 1, l =>
    match skipWsJ l with
    | [] => none
    | c :: r =>
      if c = '"' then
        match parseStrChars r with
        | some (s, rem) => some (Json.str ⟨s⟩, rem)
        | none => none
      else if c = '[' then
        match skipWsJ r with
        | ']' :: r2 => some (Json.arr [], r2)
        | l2 =>
          match parseItemsLoop fuel [] l2 with
          | some (xs, rem) => some (Json.arr xs, rem)
          | none => none
      else if c = Char.ofNat 123 then
        match skipWsJ r with
        | l2 =>
          if l2.head? = some (Char.ofNat 125) then some (Json.obj [], l2.tail)
          else
            match parseFieldsLoop fuel [] l2 with
            | some (fs, rem) => some (Json.obj fs, rem)
            | none => none
      else
        match parseKeyword (c :: r) with
        | some (j, rem) => some (j, rem)
        | none =>
          let span := (c :: r).takeWhile numTailChar
          let rest := (c :: r).dropWhile numTailChar
          if validNum span then some (Json.num ⟨span⟩, rest) else none

/-- Parse the comma-separated elements of a non-empty JSON array, the
opening bracket and any leading whitespace already consumed. -/
def parseItemsLoop : Nat → List Json → List Char → Option (List Json × List Char)
  | 0, _, _ => none
  | fuel + 1, acc, l =>
    match parseVal fuel l with
    | none => none
    | some (j, rest) =>
      match skipWsJ rest with
      | ',' :: r2 => parseItemsLoop fuel (j :: acc) r2
      | ']' :: r2 => some ((j :: acc).reverse, r2)
      | _ => none

/-- Parse the comma-separated members of a non-empty JSON object, the
opening brace and any leading whitespace already consumed. -/
def parseFieldsLoop : Nat → List (String × Json) → List Char → Option (List (String × Json) × List Char)
  | 0, _, _ => none
  | fuel + 1, acc, l =>
    match skipWsJ l with
    | '"' :: r =>
      match parseStrChars r with
      | none => none
      | some (k, rest) =>
        match skipWsJ rest with
        | ':' :: r2 =>
          match parseVal fuel r2 with
          | none => none
          | some (v, rest2) =>
            match skipWsJ rest2 with
            | ',' :: r3 => parseFieldsLoop fuel ((String.mk k, v) :: acc) r3
            | cb :: r3 =>
              if cb = Char.ofNat 125 then some (((String.mk k, v) :: acc).reverse, r3)
              else none
            | [] => none
        | _ => none
    | _ => none

end

/-- Python `json.loads`: parse a whole document, allowing trailing
whitespace only; `none` models a raised `JSONDecodeError`. -/
def jsonLoads (s : String) : Option Json :=
  match parseVal (2 * s.length + 16) s.data with
  | some (j, rest) => if (skipWsJ rest).isEmpty then some j else none
  | none => none

/-- Structural prefix test on character lists (first argument is the
prefix to look for). -/
def isPrefixL : List Char → List Char → Bool
  | [], _ => true
  | _ :: _, [] => false
  | p :: ps, c :: cs => p = c && isPrefixL ps cs

/-- Python `s.startswith(pre)`. -/
def pyStartsWith (s pre : String) : Bool :=
  isPrefixL pre.data s.data

/-- The "```json" marker tested by `content.strip().startswith("```json")`. -/
def fenceJson : String := "```json"

/-- The bare fence marker "```". -/
def fence : String := "```"

/-- The chained strip of the source, applied to fenced input:
`.strip("```json").strip("```").strip()` — note Python strip-with-argument
removes a character SET from both ends, not a prefix. -/
def stripFences (t : String) : String :=
  pyStrip (pyStripSet (pyStripSet t fenceJson.data) fence.data)

/-- Accept a JSON parse only when it yields an array, returning its
elements; models `questions = json.loads(s)` followed by
`isinstance(questions, list)` (a parse failure, i.e. `none`, models the
caught exception). -/
def jsonTier (s : String) : Option (List Json) :=
  match jsonLoads s with
  | some (Json.arr xs) => some xs
  | _ => none

/-- First guarded attempt of `get_comparison_questions` (lines 71-78 of the
source): only when the stripped content starts with "```json", strip the
fence characters and try JSON; accept only a list. -/
def tier1 (t : String) : Option (List Json) :=
  if pyStartsWith t fenceJson then jsonTier (stripFences t) else none

/-- The string handed to `json.loads` by the second attempt (lines 80-92):
strip a "```json" fence, else a bare "```" fence, else parse as-is. -/
def tier2Input (t : String) : String :=
  if pyStartsWith t fenceJson then stripFences t
  else if pyStartsWith t fence then pyStrip (pyStripSet t fence.data)
  else t

/-- Second guarded attempt: raw or fence-stripped JSON, accepted only when
it parses to a list. -/
def tier2 (t : String) : Option (List Json) :=
  jsonTier (tier2Input t)

/-- One line's candidate in the numbered-list heuristic:
`line.split('.', 1)[1].strip()` kept when the line contains a period and
the candidate is non-empty (lines 97-100 of the source). -/
def candidate (line : String) : Option String :=
  match afterDot line.data with
  | none => none
  | some r =>
    if (pyStrip (String.mk r)).length > 0 then some (pyStrip (String.mk r)) else none

/-- All numbered-list candidates of the (stripped) content, in source-line
order. -/
def collectCandidates (t : String) : List String :=
  (splitlines t).filterMap candidate

/-- Third attempt (lines 94-104): accept the collected candidates only when
there are at least 3 of them. -/
def numberedTier (t : String) : Option (List String) :=
  if 3 ≤ (collectCandidates t).length then some (collectCandidates t) else none

/-- The fixed fallback list returned when every attempt fails (lines
107-113 of the source). -/
def fallback_questions : List Json :=
  [Json.str "What objects are visible in the image?",
   Json.str "What are the main colors present?",
   Json.str "What actions or activities are occurring?",
   Json.str "Describe the setting or background."]

/-- The fallback chain of `get_comparison_questions` (lines 71-113),
applied to the completion text: fenced JSON, then lenient JSON, then the
numbered-list heuristic, then the fixed fallback.  Elements accepted by a
JSON tier are returned exactly as parsed (the source returns the
`json.loads` result unchanged). -/
def get_comparison_questions (content : String) : List Json :=
  match tier1 (pyStrip content) with
  | some xs => xs
  | none =>
    match tier2 (pyStrip content) with
    | some xs => xs
    | none =>
      match numberedTier (pyStrip content) with
      | some qs => qs.map Json.str
      | none => fallback_questions

/-- The answer normalization of the source's
`norm = lambda s: str(s).strip().lower()` (answers are already strings
here, so `str` is the identity). -/
def norm (s : String) : String :=
  pyLower (pyStrip s)

/-- One line of the report printed by `execute_visprog_comparison` for one
question: either both VQA executions succeeded (left/right answers, the
difference verdict and the running total printed after the record), or an
exception was caught and printed (err), leaving the total as it was. -/
inductive QuestionRecord where
  | ok (question left right : String) (isDifferent : Bool) (total : Nat)
  | err (question message : String) (total : Nat)

/-- Question of a record. -/
def recQuestion : QuestionRecord → String
  | QuestionRecord.ok q _ _ _ _ => q
  | QuestionRecord.err q _ _ => q

/-- Whether the record is the caught-exception marker. -/
def recIsErr : QuestionRecord → Bool
  | QuestionRecord.ok _ _ _ _ _ => false
  | QuestionRecord.err _ _ _ => true

/-- Difference verdict of a record (false for an error record, which does
not touch the counter). -/
def recDiff : QuestionRecord → Bool
  | QuestionRecord.ok _ _ _ d _ => d
  | QuestionRecord.err _ _ _ => false

/-- Running total exposed with the record (the
"TOTAL DIFFERENCES FOUND" print after each loop iteration). -/
def recTotal : QuestionRecord → Nat
  | QuestionRecord.ok _ _ _ _ t => t
  | QuestionRecord.err _ _ t => t

/-- Body of the per-question loop (lines 130-146 of the source).  The VQA
engine is the oracle `vqa tag question`, where `tag` is "LEFT" or "RIGHT"
(the interpreter executing the generated VQA program on that image);
`Except.error` models a raised exception.  The LEFT program runs first; if
it raises, the RIGHT program is never executed, nothing is compared, and
the counter is unchanged.  On two answers the counter increments exactly
when the normalized answers differ. -/
def step (vqa : String → String → Except String String) (c : Nat) (q : String) :
    QuestionRecord × Nat :=
  match vqa "LEFT" q with
  | Except.error e => (QuestionRecord.err q e c, c)
  | Except.ok l =>
    match vqa "RIGHT" q with
    | Except.error e => (QuestionRecord.err q e c, c)
    | Except.ok r =>
      let d := norm l != norm r
      let c2 := if d then c + 1 else c
      (QuestionRecord.ok q l r d c2, c2)

/-- Whether evaluating this question raises (either VQA execution fails). -/
def stepFails (vqa : String → String → Except String String) (q : String) : Bool :=
  match vqa "LEFT" q with
  | Except.error _ => true
  | Except.ok _ =>
    match vqa "RIGHT" q with
    | Except.error _ => true
    | Except.ok _ => false

/-- The evaluation loop of `execute_visprog_comparison` (lines 116-146):
one record per question, threading `difference_counter` (started at 0 by
the caller). -/
def execute_visprog_comparison (vqa : String → String → Except String String) :
    List String → Nat → List QuestionRecord
  | [], _ => []
  | q :: qs, c =>
    (step vqa c q).1 :: execute_visprog_comparison vqa qs (step vqa c q).2

/-- Errors surfaced by the orchestrator pipeline: the orchestrator's own
existence check (`FileNotFoundError` raised at line 151), a failed file
open while encoding an image inside `get_comparison_questions` (the
`open(image_path, 'rb')` of `encode_image_to_base64`), and the
`RuntimeError` raised on a non-200 HTTP status (line 65). -/
inductive CompareError where
  | notFound (msg : String)
  | fileRead (path : String)
  | transport (status : Nat) (body : String)

/-- True exactly on the transport (non-200 HTTP status) error. -/
def CompareError.isTransport : CompareError → Bool
  | CompareError.transport _ _ => true
  | _ => false

/-- `encode_image_to_base64` (lines 32-34): opening a missing/unreadable
path raises, modelled on a filesystem oracle `fs` giving readability; the
base64 payload itself feeds only the outbound HTTP request and is
irrelevant to every property, so it is abstracted to "". -/
def encode_image_to_base64 (fs : String → Bool) (image_path : String) :
    Except CompareError String :=
  if fs image_path then Except.ok "" else Except.error (CompareError.fileRead image_path)

/-- `get_comparison_questions` seen from the orchestrator (lines 37-113):
encode the two scene images and the heatmap in that order (each open can
raise), send the request, raise on a non-200 status, then run the
extraction chain on the completion text.  `post = (status, content)`
models the HTTP response: its status code and, when successful, the
completion text `res.json()['choices'][0]['message']['content']` (the JSON
envelope around the completion is abstracted). -/
def get_comparison_questions_io (fs : String → Bool) (post : Nat × String)
    (img1_path img2_path diff_path : String) : Except CompareError (List Json) :=
  match encode_image_to_base64 fs img1_path with
  | Except.error e => Except.error e
  | Except.ok _ =>
    match encode_image_to_base64 fs img2_path with
    | Except.error e => Except.error e
    | Except.ok _ =>
      match encode_image_to_base64 fs diff_path with
      | Except.error e => Except.error e
      | Except.ok _ =>
        if post.1 ≠ 200 then Except.error (CompareError.transport post.1 post.2)
        else Except.ok (get_comparison_questions post.2)

/-- Python `str()` rendering of a question as interpolated into the VQA
program f-string.  Strings pass through; scalars render as their Python
forms; container questions (never produced by a well-behaved completion,
and inspected by no property) are abstracted to opaque tags. -/
def pyStr : Json → String
  | Json.str s => s
  | Json.num raw => raw
  | Json.bool true => "True"
  | Json.bool false => "False"
  | Json.null => "None"
  | Json.arr _ => "<list>"
  | Json.obj _ => "<dict>"

/-- The orchestrator `compare_images` (lines 149-160): raise
`FileNotFoundError` unless both scene paths exist (the heatmap path is not
checked), then obtain questions (which may itself raise file-read or
transport errors), then run the evaluation loop with the counter at 0. -/
def compare_images (fs : String → Bool) (post : Nat × String)
    (vqa : String → String → Except String String)
    (img1_path img2_path diff_path : String) :
    Except CompareError (List QuestionRecord) :=
  if fs img1_path && fs img2_path then
    match get_comparison_questions_io fs post img1_path img2_path diff_path with
    | Except.error e => Except.error e
    | Except.ok qs => Except.ok (execute_visprog_comparison vqa (qs.map pyStr) 0)
  else Except.error (CompareError.notFound " One or both image paths do not exist.")

/-- True exactly on a JSON string value whose string is non-empty. -/
def nonEmptyStr : Json → Bool
  | Json.str s => s.length != 0
  | _ => false

/-- A stub VQA engine answering "Yes" on LEFT and "No" on RIGHT. -/
def vqaLR : String → String → Except String String :=
  fun tag _ => if tag == "LEFT" then Except.ok "Yes" else Except.ok "No"

/-- A stub VQA engine that raises exactly on question "q3". -/
def vqaFailQ3 : String → String → Except String String :=
  fun _ q => if q == "q3" then Except.error "boom" else Except.ok "ans"

/-- A stub VQA engine that raises on every LEFT execution. -/
def vqaFailLeft : String → String → Except String String :=
  fun tag _ => if tag == "LEFT" then Except.error "boom" else Except.ok "ans"

/-- A filesystem where no path exists. -/
def fsNone : String → Bool := fun _ => false

/-- A filesystem where exactly the two scene images exist (and the heatmap
does not). -/
def fsScenes : String → Bool :=
  fun p => p == "left.png" || p == "right.png"

theorem step_err_left {vqa : String → String → Except String String} {q e : String}
    (c : Nat) (h : vqa "LEFT" q = Except.error e) :
    step vqa c q = (QuestionRecord.err q e c, c) := by
  unfold step; rw [h]

theorem step_err_right {vqa : String → String → Except String String} {q l e : String}
    (c : Nat) (hL : vqa "LEFT" q = Except.ok l) (hR : vqa "RIGHT" q = Except.error e) :
    step vqa c q = (QuestionRecord.err q e c, c) := by
  unfold step; rw [hL, hR]

theorem step_ok {vqa : String → String → Except String String} {q l r : String}
    (c : Nat) (hL : vqa "LEFT" q = Except.ok l) (hR : vqa "RIGHT" q = Except.ok r) :
    step vqa c q =
      (QuestionRecord.ok q l r (norm l != norm r) (if norm l != norm r then c + 1 else c),
       if norm l != norm r then c + 1 else c) := by
  unfold step; rw [hL, hR]

/-- C2: for every question whose LEFT and RIGHT evaluations both return an
answer, the record's isDifferent flag equals the inequality of the two
answers after normalization (strip surrounding whitespace, lower-case), and
in particular "Yes" vs " yes " normalizes equal (isDifferent = false) while
"Yes" vs "No" normalizes unequal (isDifferent = true). -/
theorem C2_isDifferent_iff_normalized_unequal
    (vqa : String → String → Except String String) (c : Nat) (q l r : String)
    (hL : vqa "LEFT" q = Except.ok l) (hR : vqa "RIGHT" q = Except.ok r) :
    (step vqa c q).1 =
      QuestionRecord.ok q l r (norm l != norm r) (if norm l != norm r then c + 1 else c) ∧
    (norm "Yes" != norm " yes ") = false ∧
    (norm "Yes" != norm "No") = true := by
  refine ⟨?_, rfl, rfl⟩
  rw [step_ok c hL hR]

/-- Witness for C2 at a concrete engine: LEFT answers "Yes", RIGHT answers
"No". -/
theorem C2_isDifferent_iff_normalized_unequal_witness :
    vqaLR "LEFT" "q" = Except.ok "Yes" ∧ vqaLR "RIGHT" "q" = Except.ok "No" ∧
    ((step vqaLR 0 "q").1 =
      QuestionRecord.ok "q" "Yes" "No" (norm "Yes" != norm "No")
        (if norm "Yes" != norm "No" then 0 + 1 else 0) ∧
     (norm "Yes" != norm " yes ") = false ∧
     (norm "Yes" != norm "No") = true) :=
  ⟨rfl, rfl, C2_isDifferent_iff_normalized_unequal vqaLR 0 "q" "Yes" "No" rfl rfl⟩

/-- C10: when the LEFT VQA execution raises, the loop body produces the
caught-error record with the counter unchanged; the right-hand side does
not mention the engine's RIGHT behaviour at all, so the RIGHT execution is
never attempted and no comparison happens. -/
theorem C10_left_failure_skips_right
    (vqa : String → String → Except String String) (c : Nat) (q e : String)
    (h : vqa "LEFT" q = Except.error e) :
    step vqa c q = (QuestionRecord.err q e c, c) :=
  step_err_left c h

/-- Witness for C10 at a concrete engine that raises on LEFT. -/
theorem C10_left_failure_skips_right_witness :
    vqaFailLeft "LEFT" "q" = Except.error "boom" ∧
    step vqaFailLeft 0 "q" = (QuestionRecord.err "q" "boom" 0, 0) :=
  ⟨rfl, C10_left_failure_skips_right vqaFailLeft 0 "q" "boom" rfl⟩

/-- C7: the valid-JSON-but-not-a-list input is rejected by both JSON tiers
(parsed as an object, not returned wrapped), yields no numbered-list
candidate (no line contains a period), and extraction returns exactly the
fixed 4-question fallback. -/
theorem C7_json_object_falls_to_fallback :
    tier1 (pyStrip "\x7b\"not\":\"a list\"\x7d") = none ∧
    tier2 (pyStrip "\x7b\"not\":\"a list\"\x7d") = none ∧
    collectCandidates (pyStrip "\x7b\"not\":\"a list\"\x7d") = [] ∧
    get_comparison_questions "\x7b\"not\":\"a list\"\x7d" = fallback_questions :=
  ⟨rfl, rfl, rfl, rfl⟩

/-- Counterexample to C5's coercion clause: the accepted JSON array
`[1, 2]` is returned exactly as parsed — its elements stay JSON numbers
and are not coerced to their string forms. -/
theorem C5_counterexample_no_string_coercion :
    get_comparison_questions "[1, 2]" = [Json.num "1", Json.num "2"] ∧
    (get_comparison_questions "[1, 2]").all Json.isStr = false :=
  ⟨rfl, rfl⟩

/-- C5 (amended): a parsed result is accepted by a JSON tier only if it is
a JSON array, whose elements are returned exactly as parsed (without
string coercion); a JSON-fenced array parses to exactly the same question
list as the same array given bare. -/
theorem C5_amended_json_tier_array_only (s : String) (xs : List Json)
    (h : jsonTier s = some xs) :
    jsonLoads s = some (Json.arr xs) ∧
    get_comparison_questions "```json\n[\"A?\",\"B?\"]\n```" = [Json.str "A?", Json.str "B?"] ∧
    get_comparison_questions "[\"A?\",\"B?\"]" = [Json.str "A?", Json.str "B?"] := by
  refine ⟨?_, rfl, rfl⟩
  unfold jsonTier at h
  split at h
  · rename_i heq
    injection h with h
    rw [heq, h]
  · exact absurd h (by simp)

/-- Witness for C5 (amended) at the bare two-question array. -/
theorem C5_amended_json_tier_array_only_witness :
    jsonTier "[\"A?\",\"B?\"]" = some [Json.str "A?", Json.str "B?"] ∧
    jsonLoads "[\"A?\",\"B?\"]" = some (Json.arr [Json.str "A?", Json.str "B?"]) :=
  ⟨rfl, (C5_amended_json_tier_array_only "[\"A?\",\"B?\"]" [Json.str "A?", Json.str "B?"] rfl).1⟩

/-- Counterexample to C1's non-emptiness clause: the raw text "[]" parses
as a JSON list and is returned as-is, so extraction yields an EMPTY
question list. -/
theorem C1_counterexample_empty_list :
    (get_comparison_questions "[]").length = 0 :=
  rfl

theorem collect_all_nonempty (t : String) :
    (collectCandidates t).all (fun s => s.length != 0) = true := by
  rw [List.all_eq_true]
  intro s hs
  simp only [collectCandidates, List.mem_filterMap] at hs
  obtain ⟨line, -, hc⟩ := hs
  unfold candidate at hc
  split at hc
  · exact absurd hc (by simp)
  · split at hc
    · rename_i hlen
      injection hc with hc
      subst hc
      simp only [bne_iff_ne, ne_eq]
      omega
    · exact absurd hc (by simp)

/-- C1 (amended): the extraction chain is total by construction (each tier
absorbs its own failure), and whenever neither JSON tier accepts, the
result is a non-empty list all of whose elements are non-empty strings;
when a JSON tier accepts, however, the parsed array is returned as-is and
may be empty or hold empty or non-string elements. -/
theorem C1_amended_extraction_nonempty (content : String)
    (h1 : tier1 (pyStrip content) = none) (h2 : tier2 (pyStrip content) = none) :
    (get_comparison_questions content).isEmpty = false ∧
    (get_comparison_questions content).all nonEmptyStr = true := by
  unfold get_comparison_questions
  simp only [h1, h2]
  rcases hN : numberedTier (pyStrip content) with - | qs
  · exact ⟨rfl, rfl⟩
  · unfold numberedTier at hN
    split at hN
    · rename_i hlen
      injection hN with hN
      subst hN
      constructor
      · show ((collectCandidates (pyStrip content)).map Json.str).isEmpty = false
        rcases hq : collectCandidates (pyStrip content) with - | ⟨a, l⟩
        · rw [hq] at hlen; simp at hlen
        · rfl
      · show ((collectCandidates (pyStrip content)).map Json.str).all nonEmptyStr = true
        have hcoll := collect_all_nonempty (pyStrip content)
        rw [List.all_eq_true] at hcoll ⊢
        intro j hj
        rw [List.mem_map] at hj
        obtain ⟨s, hsm, hjs⟩ := hj
        subst hjs
        simpa [nonEmptyStr] using hcoll s hsm
    · exact absurd hN (by simp)

/-- Witness for C1 (amended) at garbage input rejected by both JSON
tiers. -/
theorem C1_amended_extraction_nonempty_witness :
    tier1 (pyStrip "hello") = none ∧ tier2 (pyStrip "hello") = none ∧
    ((get_comparison_questions "hello").isEmpty = false ∧
     (get_comparison_questions "hello").all nonEmptyStr = true) :=
  ⟨rfl, rfl, C1_amended_extraction_nonempty "hello" rfl rfl⟩

/-- C6: the numbered-list tier collects the post-period text of every line
whose trimmed remainder is non-empty, in line order (that is
`collectCandidates`), and accepts the collection iff it has at least 3
entries; with 3 or more candidates (and both JSON tiers rejecting) the
collection is returned, while exactly 1 or 2 candidates are rejected and
extraction falls through to the fixed fallback. -/
theorem C6_numbered_list_threshold (content : String)
    (h1 : tier1 (pyStrip content) = none) (h2 : tier2 (pyStrip content) = none) :
    (3 ≤ (collectCandidates (pyStrip content)).length →
      get_comparison_questions content =
        (collectCandidates (pyStrip content)).map Json.str) ∧
    ((collectCandidates (pyStrip content)).length = 1 ∨
       (collectCandidates (pyStrip content)).length = 2 →
      get_comparison_questions content = fallback_questions) := by
  unfold get_comparison_questions
  simp only [h1, h2]
  constructor
  · intro h3
    unfold numberedTier
    rw [if_pos h3]
  · intro h12
    have h3 : ¬ 3 ≤ (collectCandidates (pyStrip content)).length := by omega
    unfold numberedTier
    rw [if_neg h3]

/-- Witness for C6 at the below-threshold numbered list
"1. Only one.\n2. item two." (2 candidates). -/
theorem C6_numbered_list_threshold_witness :
    tier1 (pyStrip "1. Only one.\n2. item two.") = none ∧
    tier2 (pyStrip "1. Only one.\n2. item two.") = none ∧
    (collectCandidates (pyStrip "1. Only one.\n2. item two.")).length = 2 ∧
    get_comparison_questions "1. Only one.\n2. item two." = fallback_questions :=
  ⟨rfl, rfl, rfl,
    (C6_numbered_list_threshold "1. Only one.\n2. item two." rfl rfl).2 (Or.inr rfl)⟩

/-- C8: when either scene image path does not exist, `compare_images`
raises the not-found error, and the outcome is the same for every HTTP
transport — the question-generation call is never made. -/
theorem C8_not_found_short_circuit (fs : String → Bool) (post : Nat × String)
    (vqa : String → String → Except String String) (p1 p2 pd : String)
    (h : fs p1 = false ∨ fs p2 = false) :
    compare_images fs post vqa p1 p2 pd =
      Except.error (CompareError.notFound " One or both image paths do not exist.") ∧
    ∀ post2 : Nat × String, compare_images fs post2 vqa p1 p2 pd =
      compare_images fs post vqa p1 p2 pd := by
  have hb : (fs p1 && fs p2) = false := by
    rcases h with h | h <;> simp [h]
  constructor
  · unfold compare_images
    rw [hb]
    rfl
  · intro post2
    unfold compare_images
    rw [hb]
    simp

/-- Witness for C8 on a filesystem with no existing paths. -/
theorem C8_not_found_short_circuit_witness :
    fsNone "a" = false ∧
    compare_images fsNone (200, "") vqaLR "a" "b" "d" =
      Except.error (CompareError.notFound " One or both image paths do not exist.") :=
  ⟨rfl, (C8_not_found_short_circuit fsNone (200, "") vqaLR "a" "b" "d" (Or.inl rfl)).1⟩

/-- Counterexample to C9's transport clause: with both scene paths present
and the heatmap missing, `compare_images` fails with the file-read error
raised while encoding the heatmap inside the question-generation step —
BEFORE any transport exchange — and that error is not a transport error. -/
theorem C9_counterexample_file_read_not_transport :
    compare_images fsScenes (200, "") vqaLR "left.png" "right.png" "diff.png" =
      Except.error (CompareError.fileRead "diff.png") ∧
    CompareError.isTransport (CompareError.fileRead "diff.png") = false :=
  ⟨rfl, rfl⟩

/-- C9 (amended): the orchestrator's existence check ignores the heatmap
path; an unreadable heatmap surfaces from within the question-generation
step as the file-read failure of its heatmap encoding (for every
transport), not as the orchestrator's not-found error and not as a
transport error. -/
theorem C9_amended_heatmap_unchecked (fs : String → Bool) (post : Nat × String)
    (vqa : String → String → Except String String) (p1 p2 pd : String)
    (h1 : fs p1 = true) (h2 : fs p2 = true) (hd : fs pd = false) :
    compare_images fs post vqa p1 p2 pd = Except.error (CompareError.fileRead pd) ∧
    CompareError.isTransport (CompareError.fileRead pd) = false := by
  refine ⟨?_, rfl⟩
  unfold compare_images get_comparison_questions_io encode_image_to_base64
  rw [h1, h2, hd]
  simp

/-- Witness for C9 (amended) on the concrete two-scene filesystem. -/
theorem C9_amended_heatmap_unchecked_witness :
    fsScenes "left.png" = true ∧ fsScenes "right.png" = true ∧
    fsScenes "diff.png" = false ∧
    compare_images fsScenes (404, "gone") vqaLR "left.png" "right.png" "diff.png" =
      Except.error (CompareError.fileRead "diff.png") :=
  ⟨rfl, rfl, rfl,
    (C9_amended_heatmap_unchecked fsScenes (404, "gone") vqaLR
      "left.png" "right.png" "diff.png" rfl rfl rfl).1⟩

theorem run_cons (vqa : String → String → Except String String)
    (q : String) (qs : List String) (c : Nat) :
    execute_visprog_comparison vqa (q :: qs) c =
      (step vqa c q).1 :: execute_visprog_comparison vqa qs (step vqa c q).2 :=
  rfl

theorem run_length (vqa : String → String → Except String String)
    (qs : List String) : ∀ c, (execute_visprog_comparison vqa qs c).length = qs.length := by
  induction qs with
  | nil => intro c; rfl
  | cons q qs ih =>
    intro c
    rw [run_cons]
    simp [ih]

theorem step_question (vqa : String → String → Except String String)
    (c : Nat) (q : String) : recQuestion (step vqa c q).1 = q := by
  rcases hL : vqa "LEFT" q with e | l
  · rw [step_err_left c hL]
    rfl
  · rcases hR : vqa "RIGHT" q with e | r
    · rw [step_err_right c hL hR]
      rfl
    · rw [step_ok c hL hR]
      rfl

theorem step_err_of_fails (vqa : String → String → Except String String)
    (c : Nat) (q : String) (hf : stepFails vqa q = true) :
    recIsErr (step vqa c q).1 = true := by
  rcases hL : vqa "LEFT" q with e | l
  · rw [step_err_left c hL]
    rfl
  · rcases hR : vqa "RIGHT" q with e | r
    · rw [step_err_right c hL hR]
      rfl
    · exfalso
      unfold stepFails at hf
      rw [hL, hR] at hf
      simp at hf

theorem run_get_spec (vqa : String → String → Except String String)
    (qs : List String) : ∀ (c i : Nat) (q : String), qs[i]? = some q →
    ((execute_visprog_comparison vqa qs c)[i]?).map recQuestion = some q ∧
    (stepFails vqa q = true →
      ((execute_visprog_comparison vqa qs c)[i]?).map recIsErr = some true) := by
  induction qs with
  | nil => intro c i q h; simp at h
  | cons q0 qs ih =>
    intro c i q h
    rw [run_cons]
    cases i with
    | zero =>
      simp only [List.getElem?_cons_zero, Option.some.injEq] at h
      subst h
      simp only [List.getElem?_cons_zero, Option.map_some']
      constructor
      · rw [step_question]
      · intro hf
        rw [step_err_of_fails vqa c _ hf]
    | succ i =>
      simp only [List.getElem?_cons_succ] at h ⊢
      exact ih _ i q h

/-- C3: the evaluation loop is total over its question list — one record
per question, in order — and a question on which the VQA engine raises is
recorded as the caught-error record while every other question (before or
after it) still gets its own record. -/
theorem C3_per_question_isolation (vqa : String → String → Except String String)
    (c : Nat) (qs : List String) :
    (execute_visprog_comparison vqa qs c).length = qs.length ∧
    ∀ (i : Nat) (q : String), qs[i]? = some q →
      ((execute_visprog_comparison vqa qs c)[i]?).map recQuestion = some q ∧
      (stepFails vqa q = true →
        ((execute_visprog_comparison vqa qs c)[i]?).map recIsErr = some true) :=
  ⟨run_length vqa qs c, run_get_spec vqa qs c⟩

/-- Witness for C3: the engine raises exactly on question 3 of 5; the
report still has 5 records, record 3 is the error marker, and questions 4
and 5 are evaluated and included. -/
theorem C3_per_question_isolation_witness :
    (execute_visprog_comparison vqaFailQ3 ["q1", "q2", "q3", "q4", "q5"] 0).length = 5 ∧
    ((execute_visprog_comparison vqaFailQ3 ["q1", "q2", "q3", "q4", "q5"] 0)[2]?).map recIsErr
      = some true ∧
    ((execute_visprog_comparison vqaFailQ3 ["q1", "q2", "q3", "q4", "q5"] 0)[3]?).map recQuestion
      = some "q4" ∧
    ((execute_visprog_comparison vqaFailQ3 ["q1", "q2", "q3", "q4", "q5"] 0)[4]?).map recQuestion
      = some "q5" :=
  have h := C3_per_question_isolation vqaFailQ3 0 ["q1", "q2", "q3", "q4", "q5"]
  ⟨h.1, (h.2 2 "q3" rfl).2 rfl, (h.2 3 "q4" rfl).1, (h.2 4 "q5" rfl).1⟩

theorem step_total_eq (vqa : String → String → Except String String)
    (c : Nat) (q : String) :
    (step vqa c q).2 = c + (if recDiff (step vqa c q).1 then 1 else 0) ∧
    recTotal (step vqa c q).1 = (step vqa c q).2 := by
  rcases hL : vqa "LEFT" q with e | l
  · rw [step_err_left c hL]
    exact ⟨rfl, rfl⟩
  · rcases hR : vqa "RIGHT" q with e | r
    · rw [step_err_right c hL hR]
      exact ⟨rfl, rfl⟩
    · rw [step_ok c hL hR]
      cases hd : norm l != norm r <;> simp [recDiff, recTotal, hd]

theorem run_get_total (vqa : String → String → Except String String)
    (qs : List String) : ∀ c i, i < qs.length →
    ((execute_visprog_comparison vqa qs c)[i]?).map recTotal =
      some (c + List.countP recDiff ((execute_visprog_comparison vqa qs c).take (i + 1))) := by
  induction qs with
  | nil => intro c i h; simp at h
  | cons q qs ih =>
    intro c i h
    rw [run_cons]
    cases i with
    | zero =>
      simp only [List.getElem?_cons_zero, Option.map_some', List.take_succ_cons,
        List.take_zero, List.countP_cons, List.countP_nil, Option.some.injEq]
      have hs := step_total_eq vqa c q
      rw [hs.2, hs.1]
      omega
    | succ i =>
      simp only [List.getElem?_cons_succ, List.take_succ_cons, List.countP_cons]
      rw [ih ((step vqa c q).2) i (by simpa using h)]
      have hs := step_total_eq vqa c q
      rw [hs.1]
      cases recDiff (step vqa c q).1
      · simp
      · simp
        omega

/-- C4: the running total carried by the N-th record (the counter printed
after processing the first N questions, counting from a start of 0) equals
the number of records among the first N whose isDifferent flag is true;
the counter is exposed on every record, not only at the end. -/
theorem C4_running_count_invariant (vqa : String → String → Except String String)
    (qs : List String) (i : Nat) (h : i < qs.length) :
    ((execute_visprog_comparison vqa qs 0)[i]?).map recTotal =
      some (List.countP recDiff ((execute_visprog_comparison vqa qs 0).take (i + 1))) := by
  simpa using run_get_total vqa qs 0 i h

/-- Witness for C4 at a concrete two-question run where both questions
differ. -/
theorem C4_running_count_invariant_witness :
    1 < (["a", "b"] : List String).length ∧
    ((execute_visprog_comparison vqaLR ["a", "b"] 0)[1]?).map recTotal =
      some (List.countP recDiff ((execute_visprog_comparison vqaLR ["a", "b"] 0).take 2)) :=
  ⟨by decide, C4_running_count_invariant vqaLR ["a", "b"] 1 (by decide)⟩

/-!
Concrete behaviours of the extraction chain on the inputs named by the
specification's testable properties, checked by evaluation.
-/

example : get_comparison_questions "[\"Is there a boat?\", \"What color is the car?\"]"
    = [Json.str "Is there a boat?", Json.str "What color is the car?"] := rfl
example : get_comparison_questions "```json\n[\"A?\",\"B?\"]\n```"
    = [Json.str "A?", Json.str "B?"] := rfl
example : get_comparison_questions "[\"A?\",\"B?\"]"
    = [Json.str "A?", Json.str "B?"] := rfl
example : get_comparison_questions "\x7b\"not\":\"a list\"\x7d" = fallback_questions := rfl
example : get_comparison_questions "1. Is there a dog?\n2. What color is the sky?\n3. How many trees?"
    = [Json.str "Is there a dog?", Json.str "What color is the sky?", Json.str "How many trees?"] := rfl
example : get_comparison_questions "1. Only one.\n2. item two." = fallback_questions := rfl
example : get_comparison_questions "[]" = [] := rfl
example : get_comparison_questions "[1, 2]" = [Json.num "1", Json.num "2"] := rfl
example : get_comparison_questions "hello" = fallback_questions := rfl
